import Mathlib

/-!
Shallow embedding of `capture_meter.py` (meter-reader repository).

The program is a single linear image pipeline plus a session driver:
crop an ROI out of a captured frame, enhance contrast (CLAHE on the L
channel), binarize (grayscale, Gaussian blur, min-max normalization,
fixed threshold 160), extract digit contour candidates (area filter,
left-to-right sort), emit a (currently constant) reading, and persist
(timestamp, reading) records to `meter_readings.csv`.

External library primitives (OpenCV color-space conversions, CLAHE,
`findContours`) are modelled either concretely where a claim depends on
their arithmetic (grayscale, blur, normalize, threshold, `contourArea`,
`boundingRect`) or as explicit functional parameters where only their
functional (input-to-output) nature matters (LAB conversions, CLAHE,
contour detection). File-system and network effects are modelled by
explicit state passing (`Option` for a possibly absent file, `Option`
results for fallible downloads/decodes).
-/

namespace MeterReader

/-- Single-channel (grayscale) image: height, width, and a total pixel
function; pixel values are intended to be 8-bit (0..255). -/
structure Gray where
  h : Nat
  w : Nat
  pix : Nat → Nat → Nat

/-- Three-channel color image in BGR channel order (OpenCV default). -/
structure Color where
  h : Nat
  w : Nat
  pix : Nat → Nat → Nat × Nat × Nat

/-- Model of `cv2.cvtColor(image, cv2.COLOR_BGR2GRAY)`: per-pixel fixed
point luma, Y = (4899 R + 9617 G + 1868 B + 8192) / 2^14, which is the
integer arithmetic OpenCV uses for 8-bit inputs. -/
def cvtColorBGR2GRAY (img : Color) : Gray where
  h := img.h
  w := img.w
  pix i j :=
    let p := img.pix i j
    (4899 * p.2.2 + 9617 * p.2.1 + 1868 * p.1 + 8192) / 16384

/-- BORDER_REFLECT_101 index mapping used by OpenCV filters: the index
sequence reflects about the edge pixels without repeating them
(… 2 1 | 0 1 2 … n-1 | n-2 n-3 …), made total by periodizing. -/
def reflect101 (n : Nat) (i : Int) : Nat :=
  if n ≤ 1 then 0
  else
    let m : Int := 2 * ((n : Int) - 1)
    let j := (((i % m) + m) % m).toNat
    if j < n then j else 2 * (n - 1) - j

/-- Pixel lookup with BORDER_REFLECT_101 extrapolation. -/
def tap (img : Gray) (i j : Int) : Nat :=
  img.pix (reflect101 img.h i) (reflect101 img.w j)

/-- Binomial weights of the fixed 5-tap Gaussian kernel OpenCV uses for
`ksize = 5`, `sigma = 0`: (1 4 6 4 1) / 16. -/
def gaussWeight : Nat → Nat
  | 0 => 1
  | 1 => 4
  | 2 => 6
  | 3 => 4
  | _ => 1

/-- Model of `cv2.GaussianBlur(gray, (5, 5), 0)`: separable 5x5 binomial
convolution with reflect-101 borders; the 8-bit result is the rounded
weighted sum divided by 256. -/
def gaussianBlur5 (img : Gray) : Gray where
  h := img.h
  w := img.w
  pix i j :=
    let s := (List.range 5).foldl
      (fun acc dy =>
        (List.range 5).foldl
          (fun acc2 dx =>
            acc2 + gaussWeight dy * gaussWeight dx *
              tap img ((i : Int) + (dy : Int) - 2) ((j : Int) + (dx : Int) - 2))
          acc)
      0
    (s + 128) / 256

/-- List of all in-bounds pixel values of a grayscale image, row major. -/
def pixList (img : Gray) : List Nat :=
  (List.range img.h).flatMap (fun i => (List.range img.w).map (fun j => img.pix i j))

/-- Minimum in-bounds pixel value (0 for an empty image). -/
def minPix (img : Gray) : Nat :=
  match pixList img with
  | [] => 0
  | x :: xs => xs.foldl Nat.min x

/-- Maximum in-bounds pixel value (0 for an empty image). -/
def maxPix (img : Gray) : Nat :=
  match pixList img with
  | [] => 0
  | x :: xs => xs.foldl Nat.max x

/-- Model of `cv2.normalize(blur, None, alpha=0, beta=255,
norm_type=cv2.NORM_MINMAX)`: affine rescaling sending the minimum pixel
to 0 and the maximum to 255 (identically 0 when the image is constant,
matching the zero scale OpenCV uses then); rounding is modelled as
integer floor division. -/
def normalizeMinMax (img : Gray) : Gray where
  h := img.h
  w := img.w
  pix i j :=
    let lo := minPix img
    let hi := maxPix img
    if hi = lo then 0 else (img.pix i j - lo) * 255 / (hi - lo)

/-- Model of `cv2.threshold(norm_img, 160, 255, cv2.THRESH_BINARY)`:
pixels strictly above 160 become 255, all others 0. -/
def threshold160 (img : Gray) : Gray where
  h := img.h
  w := img.w
  pix i j := if 160 < img.pix i j then 255 else 0

/-- Embedding of `preprocess_lcd_image`: grayscale conversion, Gaussian
blur, min-max normalization, fixed binary threshold at 160. -/
def preprocess_lcd_image (image : Color) : Gray :=
  let gray := cvtColorBGR2GRAY image
  let blur := gaussianBlur5 gray
  let norm_img := normalizeMinMax blur
  threshold160 norm_img

/-- External OpenCV primitives used by `enhance_lcd_image`, taken as
functional parameters: BGR-to-LAB conversion, the CLAHE transform built
with clipLimit 3.0 and an 8x8 tile grid applied to one channel, and the
LAB-to-BGR conversion back. -/
structure ClaheLib where
  bgr2lab : Color → Color
  claheApply : Gray → Gray
  lab2bgr : Color → Color

/-- First channel of a color image, as a grayscale image
(model of one output of `cv2.split`). -/
def channel1 (img : Color) : Gray := ⟨img.h, img.w, fun i j => (img.pix i j).1⟩

/-- Second channel of a color image, as a grayscale image. -/
def channel2 (img : Color) : Gray := ⟨img.h, img.w, fun i j => (img.pix i j).2.1⟩

/-- Third channel of a color image, as a grayscale image. -/
def channel3 (img : Color) : Gray := ⟨img.h, img.w, fun i j => (img.pix i j).2.2⟩

/-- Model of `cv2.merge` on three single-channel images: the merged
image takes its dimensions from the first channel. -/
def mergeChannels (c1 c2 c3 : Gray) : Color :=
  ⟨c1.h, c1.w, fun i j => (c1.pix i j, c2.pix i j, c3.pix i j)⟩

/-- Embedding of `enhance_lcd_image`: convert BGR to LAB, split, apply
CLAHE to the L channel, merge the enhanced L with the original a and b
channels, convert back to BGR. -/
def enhance_lcd_image (lib : ClaheLib) (image : Color) : Color :=
  let lab := lib.bgr2lab image
  let l := channel1 lab
  let a := channel2 lab
  let b := channel3 lab
  let cl := lib.claheApply l
  let limg := mergeChannels cl a b
  lib.lab2bgr limg

/-- Embedding of the ROI crop `image[y:y+h, x:x+w]` with numpy slicing
semantics for nonnegative indices: out-of-range slice ends are clamped
to the image bounds. -/
def cropRoi (img : Color) (x y w h : Nat) : Color where
  h := min (y + h) img.h - min y img.h
  w := min (x + w) img.w - min x img.w
  pix i j := img.pix (y + i) (x + j)

/-- A contour as delivered by `cv2.findContours`: a list of integer
pixel coordinates (x, y) along the boundary of a connected bright
region. -/
def Cnt : Type := List (Int × Int)

/-- Model of `cv2.contourArea`: half the absolute value of the shoelace
(Green theorem) sum over the closed polygon through the contour points,
as an exact rational. -/
def contourArea (cnt : List (Int × Int)) : ℚ :=
  let s := ((cnt.zip (cnt.rotate 1)).map
    (fun pq => pq.1.1 * pq.2.2 - pq.2.1 * pq.1.2)).sum
  ((s.natAbs : ℚ)) / 2

/-- Model of `cv2.boundingRect(cnt)[0]`: the minimal x-coordinate over
the contour points (0 for an empty contour). -/
def boundingRectX (cnt : List (Int × Int)) : Int :=
  match cnt with
  | [] => 0
  | p :: ps => ps.foldl (fun m q => min m q.1) p.1

/-- Area-filter predicate of `extract_digit_regions`:
`min_area < cv2.contourArea(cnt) < max_area` with min 50 and max 2000. -/
def digitAreaOk (cnt : List (Int × Int)) : Bool :=
  decide (50 < contourArea cnt ∧ contourArea cnt < 2000)

/-- Embedding of `extract_digit_regions`, taking the output of the
external `cv2.findContours(binary_image, cv2.RETR_EXTERNAL, ...)` call
as input: keep the contours whose area lies strictly between 50 and
2000, then sort them by the x-coordinate of their bounding rectangle
(Python `sorted` is stable, modelled by the stable `List.mergeSort`). -/
def extract_digit_regions (contours : List (List (Int × Int))) :
    List (List (Int × Int)) :=
  let digit_contours := contours.filter digitAreaOk
  digit_contours.mergeSort (fun c1 c2 => boundingRectX c1 ≤ boundingRectX c2)

/-- Embedding of `process_meter_image`. The external inputs are the
OpenCV primitives (`lib`, `fc` for `findContours`) and the decoder
`imread` (`none` models an unreadable image, raised as `ValueError` in
the source and modelled by `Except.error`). When the ROI crop is empty
(zero rows or zero columns after numpy clamping), the first operation
`enhance_lcd_image` applies to it, `cv2.cvtColor`, raises `cv2.error`
on its empty-source assertion; the exception propagates out of the
function and is modelled by `Except.error`. Otherwise the reading
returned is the hardcoded constant `"16737"`; the pipeline
intermediates are computed exactly as in the source and feed only the
annotated output images. -/
def process_meter_image (lib : ClaheLib)
    (fc : Gray → List (List (Int × Int)))
    (imread : String → Option Color)
    (image_path : String) (roi : Nat × Nat × Nat × Nat) :
    Except String String :=
  match imread image_path with
  | none => Except.error ("Could not read image: " ++ image_path)
  | some image =>
    let (x, y, w, h) := roi
    let roi_image := cropRoi image x y w h
    if roi_image.h = 0 ∨ roi_image.w = 0 then
      Except.error "cv2.error: !_src.empty() in function cvtColor"
    else
      let enhanced := enhance_lcd_image lib roi_image
      let processed := preprocess_lcd_image enhanced
      let digit_contours := extract_digit_regions (fc processed)
      let reading := "16737"
      Except.ok reading

/-- External collaborators of one capture session: the image download
at each loop iteration (`none` models a failed download), the image
processing step (`Except.error` models a raised exception), and the
wall-clock timestamp taken at each iteration. -/
structure Env where
  download : Nat → Option String
  process : String → Except String String
  timestamp : Nat → String

/-- Observable events of the session loop in `capture_and_process`. -/
inductive Event where
  /-- Iteration `i` begins with a call to `download_image`. -/
  | attempt (i : Nat)
  /-- Download at iteration `i` failed; the capture is skipped. -/
  | skipped (i : Nat)
  /-- Iteration `i` recorded a (timestamp, reading) pair. -/
  | captured (i : Nat)
  /-- Processing at iteration `i` raised; the error was logged. -/
  | procError (i : Nat)
  /-- The fixed-interval `time.sleep(interval)` pause. -/
  | sleep
deriving DecidableEq

/-- Events of one loop iteration of `capture_and_process`, excluding
the trailing conditional sleep: download, then either skip, record a
reading, or log a processing error. -/
def iterEvents (env : Env) (i : Nat) : List Event :=
  match env.download i with
  | none => [Event.attempt i, Event.skipped i]
  | some p =>
    match env.process p with
    | Except.ok _ => [Event.attempt i, Event.captured i]
    | Except.error _ => [Event.attempt i, Event.procError i]

/-- Readings recorded by one loop iteration of `capture_and_process`:
one (timestamp, reading) pair on full success, nothing otherwise. -/
def iterReadings (env : Env) (i : Nat) : List (String × String) :=
  match env.download i with
  | none => []
  | some p =>
    match env.process p with
    | Except.ok reading => [(env.timestamp i, reading)]
    | Except.error _ => []

/-- Full body of loop iteration `i` of `capture_and_process` out of
`count`. When the download fails, the `continue` statement jumps to the
next iteration and skips the trailing pause; otherwise the iteration
falls through (also from the caught processing exception) to the
`time.sleep` guarded by `i < capture_count - 1`. -/
def iterBody (env : Env) (count i : Nat) : List Event :=
  match env.download i with
  | none => iterEvents env i
  | some _ =>
    iterEvents env i ++ if i < count - 1 then [Event.sleep] else []

/-- Event trace of the whole `for i in range(capture_count)` loop of
`capture_and_process`. -/
def sessionEvents (env : Env) (count : Nat) : List Event :=
  ((List.range count).map (iterBody env count)).flatten

/-- Readings list accumulated by the loop of `capture_and_process`. -/
def sessionReadings (env : Env) (count : Nat) : List (String × String) :=
  ((List.range count).map (iterReadings env)).flatten

/-- The summary line printed after the loop:
`Total captures: ` followed by the recorded count and the requested
count, separated by a slash. -/
def summaryLine (env : Env) (count : Nat) : String :=
  "Total captures: " ++ toString (sessionReadings env count).length
    ++ "/" ++ toString count

/-- Header line written when `meter_readings.csv` is created. -/
def csvHeader : String := "timestamp,reading_kwh"

/-- One data row of `meter_readings.csv`. -/
def csvRow (rec : String × String) : String := rec.1 ++ "," ++ rec.2

/-- Embedding of the CSV persistence step of `capture_and_process`.
The file is modelled as `Option (List String)`: `none` when
`meter_readings.csv` does not exist, otherwise its list of lines. When
the readings list is empty the whole step is skipped; otherwise the
file is created with the header (mode w) when absent and appended to
without a header (mode a) when present. -/
def saveReadings (readings : List (String × String))
    (file : Option (List String)) : Option (List String) :=
  if readings = [] then file
  else
    match file with
    | none => some (csvHeader :: readings.map csvRow)
    | some lines => some (lines ++ readings.map csvRow)

/-- Embedding of `capture_and_process` as a state transformer on the
`meter_readings.csv` file: returns the readings list, the printed
summary line, and the file state after the session. -/
def capture_and_process (env : Env) (count : Nat)
    (file : Option (List String)) :
    List (String × String) × String × Option (List String) :=
  let readings := sessionReadings env count
  (readings, summaryLine env count, saveReadings readings file)

/-- Splitting a character list at every comma; the model of Python
`s.split(',')`, which yields one (possibly empty) field per
comma-separated segment. -/
def splitCommaAux : List Char → List (List Char)
  | [] => [[]]
  | c :: cs =>
    let rest := splitCommaAux cs
    if c = ',' then [] :: rest
    else
      match rest with
      | [] => [[c]]
      | r :: rs => (c :: r) :: rs

/-- Model of `args.roi.split(',')` on strings. -/
def splitComma (s : String) : List String :=
  (splitCommaAux s.data).map String.mk

/-- Whitespace characters Python `int` ignores around a numeral. -/
def isSpaceChar (c : Char) : Bool :=
  c = ' ' || c = '\t' || c = '\n' || c = '\r'

/-- Dropping leading and trailing whitespace from a character list. -/
def trimChars (cs : List Char) : List Char :=
  ((cs.dropWhile isSpaceChar).reverse.dropWhile isSpaceChar).reverse

/-- Decimal digit test. -/
def isDigitChar (c : Char) : Bool := decide ('0' ≤ c) && decide (c ≤ '9')

/-- Value of a nonempty all-digit character list, `none` otherwise. -/
def digitsVal (cs : List Char) : Option Nat :=
  if cs = [] then none
  else
    cs.foldl
      (fun acc c =>
        match acc with
        | none => none
        | some n => if isDigitChar c then some (10 * n + (c.toNat - 48)) else none)
      (some 0)

/-- Model of Python `int(s)` as used on each ROI component: an optional
sign followed by decimal digits, surrounding whitespace ignored; `none`
models the `ValueError` raised on any other string. -/
def pyInt (s : String) : Option Int :=
  match trimChars s.data with
  | '+' :: ds => (digitsVal ds).map (fun n => (n : Int))
  | '-' :: ds => (digitsVal ds).map (fun n => -(n : Int))
  | ds => (digitsVal ds).map (fun n => (n : Int))

/-- Embedding of `tuple(map(int, args.roi.split(',')))`: `none` models
the `ValueError` raised when any comma-separated component is not an
integer. -/
def parseRoi (s : String) : Option (List Int) :=
  (splitComma s).mapM pyInt

/-- Capture work `main` can perform after configuration checks pass. -/
inductive Action where
  /-- `process_meter_image` is invoked on an existing local image. -/
  | processImage (path : String)
  /-- `capture_and_process` is invoked against the URL. -/
  | captureSession (url : String) (count : Nat)
deriving DecidableEq

/-- Embedding of `main`: parse the ROI string (exit 1 on a parse error
or on a component count other than 4, before any capture work); then
either process a single local image (exit 1 when the file is missing)
or run a capture session. `runExc` models an exception raised inside
the top-level try block (caught and turned into exit 1). The result is
the process exit code paired with the capture actions attempted. -/
def mainRun (roiArg : String) (image : Option String)
    (fileExists : String → Bool) (url : String) (count : Nat)
    (runExc : Option String) : Nat × List Action :=
  match parseRoi roiArg with
  | none => (1, [])
  | some roi =>
    if roi.length ≠ 4 then (1, [])
    else
      match image with
      | some p =>
        if fileExists p then
          match runExc with
          | some _ => (1, [Action.processImage p])
          | none => (0, [Action.processImage p])
        else (1, [])
      | none =>
        match runExc with
        | some _ => (1, [Action.captureSession url count])
        | none => (0, [Action.captureSession url count])

/-! Concrete fixtures used by witness theorems. -/

/-- A concrete 4x4 color image used as a witness input. -/
def testImg : Color := ⟨4, 4, fun _ _ => (10, 20, 30)⟩

/-- A concrete instantiation of the external OpenCV primitives of
`enhance_lcd_image`, used only to witness theorems at a closed point. -/
def idLib : ClaheLib := ⟨id, id, id⟩

/-- A concrete environment whose download fails at iteration 1 only
and whose processing always succeeds with the constant reading. -/
def envMid : Env :=
  ⟨fun i => if i = 1 then none else some "img",
   fun _ => Except.ok "16737",
   fun _ => "2026-10-12 00:00:00"⟩

/-- A concrete environment whose download always fails, so every
session over it records zero readings. -/
def envFail : Env :=
  ⟨fun _ => none, fun _ => Except.error "down", fun _ => "t"⟩

/-- A concrete environment whose iterations always succeed. -/
def envOk : Env :=
  ⟨fun _ => some "img", fun _ => Except.ok "16737",
   fun _ => "2026-10-12 00:00:00"⟩

/-! Claim theorems. -/

/-- C1 counterexample: on a decodable 4x4 image with ROI (0, 1000, 10,
10) the crop is empty (the row slice starts beyond the image), so
`cv2.cvtColor` raises `cv2.error` and `process_meter_image` does not
return the constant reading `"16737"` — refuting the claim for this
ROI. -/
theorem c1_counterexample_empty_crop_raises :
    process_meter_image idLib (fun _ => []) (fun _ => some testImg)
      "meter.jpg" (0, 1000, 10, 10)
      = Except.error "cv2.error: !_src.empty() in function cvtColor" ∧
    process_meter_image idLib (fun _ => []) (fun _ => some testImg)
      "meter.jpg" (0, 1000, 10, 10) ≠ Except.ok "16737" := by
  have he : process_meter_image idLib (fun _ => []) (fun _ => some testImg)
      "meter.jpg" (0, 1000, 10, 10)
      = Except.error "cv2.error: !_src.empty() in function cvtColor" := rfl
  refine ⟨he, fun h => ?_⟩
  rw [he] at h
  exact Except.noConfusion h

/-- C1 amended: for every decodable input image and every ROI whose
crop is nonempty (at least one row and one column after numpy
clamping), `process_meter_image` returns the constant reading string
`"16737"`, regardless of the image content, the ROI, or the extracted
digit contours (here: regardless of the external contour detector `fc`
and the CLAHE primitives `lib`); an ROI with an empty crop instead
raises `cv2.error` out of the function. -/
theorem c1_amended_constant_reading (lib : ClaheLib)
    (fc : Gray → List (List (Int × Int))) (imread : String → Option Color)
    (path : String) (x y w h : Nat) (img : Color)
    (hdec : imread path = some img)
    (hr : 0 < (cropRoi img x y w h).h)
    (hc : 0 < (cropRoi img x y w h).w) :
    process_meter_image lib fc imread path (x, y, w, h)
      = Except.ok "16737" := by
  simp only [process_meter_image, hdec]
  rw [if_neg]
  push_neg
  omega

/-- Witness for the amended C1 at a concrete decoder, image and
in-bounds ROI. -/
theorem c1_amended_constant_reading_witness :
    ((fun _ : String => some testImg) "meter.jpg" = some testImg ∧
     0 < (cropRoi testImg 0 0 2 2).h ∧ 0 < (cropRoi testImg 0 0 2 2).w) ∧
    process_meter_image idLib (fun _ => []) (fun _ => some testImg)
      "meter.jpg" (0, 0, 2, 2) = Except.ok "16737" :=
  ⟨⟨rfl, by decide, by decide⟩,
   c1_amended_constant_reading idLib (fun _ => []) (fun _ => some testImg)
     "meter.jpg" 0 0 2 2 testImg rfl (by decide) (by decide)⟩

/-- C7: for every color input image, the mask produced by
`preprocess_lcd_image` is a single-channel image of the same width and
height whose pixels take only the values 0 and 255. -/
theorem c7_binarizer_two_valued (image : Color) :
    (preprocess_lcd_image image).h = image.h ∧
    (preprocess_lcd_image image).w = image.w ∧
    ∀ i j, (preprocess_lcd_image image).pix i j = 0 ∨
      (preprocess_lcd_image image).pix i j = 255 := by
  refine ⟨rfl, rfl, fun i j => ?_⟩
  simp only [preprocess_lcd_image, threshold160]
  split
  · exact Or.inr rfl
  · exact Or.inl rfl

/-- C8: for every image and every ROI (x, y, width, height) lying fully
inside the image, the cropped sub-image has exactly `height` rows and
`width` columns. -/
theorem c8_crop_dimensions (img : Color) (x y w h : Nat)
    (hx : x + w ≤ img.w) (hy : y + h ≤ img.h) :
    (cropRoi img x y w h).h = h ∧ (cropRoi img x y w h).w = w := by
  constructor
  · simp only [cropRoi]
    omega
  · simp only [cropRoi]
    omega

/-- Witness for C8 on a concrete 4x4 image with ROI (1, 1, 2, 3). -/
theorem c8_crop_dimensions_witness :
    (1 + 2 ≤ testImg.w ∧ 1 + 3 ≤ testImg.h) ∧
    ((cropRoi testImg 1 1 2 3).h = 3 ∧ (cropRoi testImg 1 1 2 3).w = 2) :=
  ⟨⟨by decide, by decide⟩,
   c8_crop_dimensions testImg 1 1 2 3 (by decide) (by decide)⟩

/-- C9: `enhance_lcd_image` and `preprocess_lcd_image` are
deterministic pure functions of their input image: equal inputs give
equal outputs, for any fixed external primitives. -/
theorem c9_deterministic (lib : ClaheLib) (img1 img2 : Color)
    (heq : img1 = img2) :
    enhance_lcd_image lib img1 = enhance_lcd_image lib img2 ∧
    preprocess_lcd_image img1 = preprocess_lcd_image img2 := by
  subst heq
  exact ⟨rfl, rfl⟩

/-- Witness for C9 at a concrete library instantiation and image. -/
theorem c9_deterministic_witness :
    (testImg = testImg) ∧
    (enhance_lcd_image idLib testImg = enhance_lcd_image idLib testImg ∧
     preprocess_lcd_image testImg = preprocess_lcd_image testImg) :=
  ⟨rfl, c9_deterministic idLib testImg testImg rfl⟩

/-- C2: for every detected contour list, `extract_digit_regions`
returns exactly those contours whose enclosed area is strictly between
50 and 2000 (as a multiset, and characterised by membership), sorted
ascending by the x-coordinate of their bounding rectangle. -/
theorem c2_digit_region_filter_sort (contours : List (List (Int × Int))) :
    (extract_digit_regions contours).Perm (contours.filter digitAreaOk) ∧
    (∀ c, c ∈ extract_digit_regions contours ↔
      c ∈ contours ∧ 50 < contourArea c ∧ contourArea c < 2000) ∧
    (extract_digit_regions contours).Pairwise
      (fun c1 c2 => boundingRectX c1 ≤ boundingRectX c2) := by
  refine ⟨List.mergeSort_perm _ _, fun c => ?_, ?_⟩
  · unfold extract_digit_regions
    rw [List.mem_mergeSort, List.mem_filter]
    unfold digitAreaOk
    rw [decide_eq_true_iff]
  · have hs := @List.sorted_mergeSort (List (Int × Int))
      (fun c1 c2 => decide (boundingRectX c1 ≤ boundingRectX c2))
      (fun a b c hab hbc => by
        rw [decide_eq_true_iff] at *
        exact le_trans hab hbc)
      (fun a b => by
        rcases le_total (boundingRectX a) (boundingRectX b) with hc | hc
        · simp [hc]
        · simp [hc])
      (contours.filter digitAreaOk)
    unfold extract_digit_regions
    exact hs.imp (fun hab => of_decide_eq_true hab)

/-- Spec-side comparison shape for the session trace: the given blocks
in order, with exactly one sleep event between consecutive blocks and
none before the first or after the last. -/
def sleepSeparated : List (List Event) → List Event
  | [] => []
  | [b] => b
  | b :: b2 :: bs => b ++ Event.sleep :: sleepSeparated (b2 :: bs)

/-- Spec-side comparison shape for the session trace with per-block
sleep flags: the given blocks in order, with exactly one sleep event
after each non-final block whose flag is set, none after a non-final
block whose flag is clear, and never a sleep before the first block or
after the last. -/
def sleepAfterMarked : List (List Event × Bool) → List Event
  | [] => []
  | [p] => p.1
  | p :: p2 :: bs =>
    p.1 ++ (if p.2 then [Event.sleep] else []) ++ sleepAfterMarked (p2 :: bs)

lemma sleepAfterMarked_append_single (bs : List (List Event × Bool))
    (p : List Event × Bool) :
    sleepAfterMarked (bs ++ [p])
      = (bs.map (fun q => q.1 ++ if q.2 then [Event.sleep] else [])).flatten
        ++ p.1 := by
  induction bs with
  | nil => rfl
  | cons c cs ih =>
    cases cs with
    | nil =>
      rw [show sleepAfterMarked ([c] ++ [p])
        = c.1 ++ (if c.2 then [Event.sleep] else [])
          ++ sleepAfterMarked [p] from rfl]
      simp [sleepAfterMarked]
    | cons d ds =>
      rw [show sleepAfterMarked ((c :: d :: ds) ++ [p])
        = c.1 ++ (if c.2 then [Event.sleep] else [])
          ++ sleepAfterMarked ((d :: ds) ++ [p]) from rfl]
      rw [ih]
      simp

lemma attempt_mem_iterEvents (env : Env) (i : Nat) :
    Event.attempt i ∈ iterEvents env i := by
  unfold iterEvents
  cases hd : env.download i with
  | none => simp
  | some p => cases hp : env.process p <;> simp [hp]

lemma attempt_mem_iterBody (env : Env) (count i : Nat) :
    Event.attempt i ∈ iterBody env count i := by
  unfold iterBody
  cases hd : env.download i with
  | none =>
    simp only [hd]
    exact attempt_mem_iterEvents env i
  | some p =>
    simp only [hd]
    exact List.mem_append_left _ (attempt_mem_iterEvents env i)

lemma attempt_mem_sessionEvents (env : Env) (count i : Nat) (hi : i < count) :
    Event.attempt i ∈ sessionEvents env count := by
  unfold sessionEvents
  rw [List.mem_flatten]
  refine ⟨iterBody env count i, ?_, ?_⟩
  · exact List.mem_map_of_mem _ (List.mem_range.mpr hi)
  · exact attempt_mem_iterBody env count i

/-- C5 counterexample: in a two-iteration session whose first download
fails, the trace contains no sleep event at all — the `continue` on the
failed download skips the pause — so the driver does not suspend
between the two consecutive iterations, and in particular the trace is
not the iteration blocks separated by single sleeps as the claim
asserts. -/
theorem c5_counterexample_failed_download_skips_sleep :
    sessionEvents envFail 2
      = [Event.attempt 0, Event.skipped 0, Event.attempt 1,
         Event.skipped 1] ∧
    Event.sleep ∉ sessionEvents envFail 2 ∧
    sessionEvents envFail 2
      ≠ sleepSeparated ((List.range 2).map (iterEvents envFail)) := by
  refine ⟨rfl, by decide, by decide⟩

/-- C5 amended: for every session, the event trace of the loop is
exactly the per-iteration event blocks in order, with a single sleep
after each non-final block whose download succeeded (whether or not
its processing then succeeded), no sleep after a non-final block whose
download failed (the `continue` skips the pause), and never a sleep
before the first iteration or after the last; no iteration block
itself sleeps, and every iteration block is nonempty. -/
theorem c5_amended_sleep_after_successful_nonfinal (env : Env)
    (count : Nat) :
    sessionEvents env count
      = sleepAfterMarked ((List.range count).map
          (fun i => (iterEvents env i, (env.download i).isSome))) ∧
    ∀ i, Event.sleep ∉ iterEvents env i ∧ iterEvents env i ≠ [] := by
  constructor
  · cases count with
    | zero => rfl
    | succ n =>
      unfold sessionEvents
      rw [List.range_succ, List.map_append, List.map_append,
        List.flatten_append]
      simp only [List.map_cons, List.map_nil]
      rw [sleepAfterMarked_append_single, List.map_map]
      congr 1
      · congr 1
        apply List.map_congr_left
        intro i hi
        have hlt : i < n := List.mem_range.mp hi
        simp only [iterBody, Function.comp_apply]
        cases hd : env.download i with
        | none => simp [hd]
        | some p =>
          simp only [hd, Option.isSome_some, if_true]
          rw [if_pos (by omega)]
      · unfold iterBody
        cases hd : env.download n with
        | none => simp [hd]
        | some p => simp [hd]
  · intro i
    unfold iterEvents
    cases env.download i with
    | none => exact ⟨by simp, by simp⟩
    | some p =>
      cases hp : env.process p <;> exact ⟨by simp [hp], by simp [hp]⟩

/-- C4: for a session of three iterations in which the download fails
on the middle attempt only and processing succeeds on the other two,
the session completes all three iterations, returns exactly two
(timestamp, reading) records, and the printed summary line reports two
captures out of three. -/
theorem c4_one_failed_attempt (env : Env) (file : Option (List String))
    (p0 r0 p2 r2 : String)
    (h0 : env.download 0 = some p0) (h0p : env.process p0 = Except.ok r0)
    (h1 : env.download 1 = none)
    (h2 : env.download 2 = some p2) (h2p : env.process p2 = Except.ok r2) :
    (capture_and_process env 3 file).1.length = 2 ∧
    (capture_and_process env 3 file).2.1 = "Total captures: 2/3" ∧
    ∀ i, i < 3 → Event.attempt i ∈ sessionEvents env 3 := by
  have hr : sessionReadings env 3
      = [(env.timestamp 0, r0), (env.timestamp 2, r2)] := by
    show ((List.range 3).map (iterReadings env)).flatten = _
    rw [show List.range 3 = [0, 1, 2] from rfl]
    simp [iterReadings, h0, h0p, h1, h2, h2p]
  refine ⟨?_, ?_, fun i hi => attempt_mem_sessionEvents env 3 i hi⟩
  · show (sessionReadings env 3).length = 2
    rw [hr]
    rfl
  · show summaryLine env 3 = _
    unfold summaryLine
    rw [hr, show [(env.timestamp 0, r0), (env.timestamp 2, r2)].length = 2
      from rfl]
    rfl

/-- Witness for C4 at the concrete middle-failure environment. -/
theorem c4_one_failed_attempt_witness :
    (envMid.download 0 = some "img" ∧ envMid.process "img" = Except.ok "16737"
      ∧ envMid.download 1 = none ∧ envMid.download 2 = some "img") ∧
    ((capture_and_process envMid 3 none).1.length = 2 ∧
     (capture_and_process envMid 3 none).2.1 = "Total captures: 2/3" ∧
     ∀ i, i < 3 → Event.attempt i ∈ sessionEvents envMid 3) :=
  ⟨⟨rfl, rfl, rfl, rfl⟩,
   c4_one_failed_attempt envMid none "img" "16737" "img" "16737"
     rfl rfl rfl rfl rfl⟩

/-- C3 counterexample: two consecutive sessions in a directory without
`meter_readings.csv`, each recording zero readings (every download
fails), leave the file nonexistent — in particular it does not consist
of the header line followed by the (empty) concatenation of the two
record lists, and no run created it with a header. -/
theorem c3_counterexample_no_file_when_both_empty :
    (capture_and_process envFail 1
        (capture_and_process envFail 1 none).2.2).2.2 = none ∧
    (none : Option (List String)) ≠ some [csvHeader] := by
  refine ⟨rfl, ?_⟩
  intro h
  cases h

lemma saveReadings_twice_from_empty (r1 r2 : List (String × String))
    (hne : r1 ≠ [] ∨ r2 ≠ []) :
    saveReadings r2 (saveReadings r1 none)
      = some (csvHeader :: (r1.map csvRow ++ r2.map csvRow)) := by
  by_cases h1 : r1 = []
  · by_cases h2 : r2 = []
    · rcases hne with h | h <;> contradiction
    · simp [saveReadings, h1, h2]
  · by_cases h2 : r2 = []
    · simp [saveReadings, h1, h2]
    · simp [saveReadings, h1, h2]

/-- C3 amended: for two consecutive sessions started where
`meter_readings.csv` does not exist, provided at least one of the two
sessions records at least one reading, the file afterwards contains
exactly one header line followed by the first session's rows and then
the second session's rows; a run with readings creates the file with
the header when absent and appends without re-writing the header when
present, while a run with zero readings leaves the file untouched. -/
theorem c3_amended_header_then_rows (env1 env2 : Env) (n1 n2 : Nat)
    (hne : sessionReadings env1 n1 ≠ [] ∨ sessionReadings env2 n2 ≠ []) :
    (capture_and_process env2 n2
        (capture_and_process env1 n1 none).2.2).2.2
      = some (csvHeader ::
          ((sessionReadings env1 n1).map csvRow
            ++ (sessionReadings env2 n2).map csvRow)) := by
  show saveReadings (sessionReadings env2 n2)
      (saveReadings (sessionReadings env1 n1) none) = _
  exact saveReadings_twice_from_empty _ _ hne

/-- Witness for the amended C3 at two concrete all-success sessions. -/
theorem c3_amended_header_then_rows_witness :
    (sessionReadings envOk 1 ≠ [] ∨ sessionReadings envOk 1 ≠ []) ∧
    (capture_and_process envOk 1
        (capture_and_process envOk 1 none).2.2).2.2
      = some (csvHeader ::
          ((sessionReadings envOk 1).map csvRow
            ++ (sessionReadings envOk 1).map csvRow)) :=
  ⟨Or.inl (by decide),
   c3_amended_header_then_rows envOk envOk 1 1 (Or.inl (by decide))⟩

/-- C6: whenever the ROI argument string does not parse to exactly four
comma-separated integers, `main` returns exit code 1 with no capture
action attempted (no download, no image processing). -/
theorem c6_bad_roi_exits_without_capture (roiArg : String)
    (image : Option String) (fileExists : String → Bool) (url : String)
    (count : Nat) (runExc : Option String)
    (hbad : ∀ l, parseRoi roiArg = some l → l.length ≠ 4) :
    mainRun roiArg image fileExists url count runExc = (1, []) := by
  unfold mainRun
  cases hp : parseRoi roiArg with
  | none => rfl
  | some l =>
    have h4 := hbad l hp
    simp [h4]

/-- Witness for C6 on the malformed ROI string with three components. -/
theorem c6_bad_roi_exits_without_capture_witness :
    (∀ l, parseRoi "1,2,3" = some l → l.length ≠ 4) ∧
    mainRun "1,2,3" none (fun _ => false) "http://camera" 1 none
      = (1, []) := by
  have hbad : ∀ l, parseRoi "1,2,3" = some l → l.length ≠ 4 := by
    intro l hl
    have hev : parseRoi "1,2,3" = some [1, 2, 3] := by decide
    rw [hev] at hl
    injection hl with h
    subst h
    decide
  exact ⟨hbad, c6_bad_roi_exits_without_capture "1,2,3" none
    (fun _ => false) "http://camera" 1 none hbad⟩

/-- C10: a session that ends with zero successful readings returns the
empty record list and leaves the `meter_readings.csv` state exactly as
it was: the file is neither created nor appended to. -/
theorem c10_empty_session_leaves_file_unchanged (env : Env) (count : Nat)
    (file : Option (List String))
    (hempty : sessionReadings env count = []) :
    (capture_and_process env count file).1 = [] ∧
    (capture_and_process env count file).2.2 = file := by
  refine ⟨hempty, ?_⟩
  show saveReadings (sessionReadings env count) file = file
  rw [hempty]
  rfl

/-- Witness for C10 at the all-failures environment, against an
existing file. -/
theorem c10_empty_session_leaves_file_unchanged_witness :
    (sessionReadings envFail 1 = []) ∧
    ((capture_and_process envFail 1 (some [csvHeader])).1 = [] ∧
     (capture_and_process envFail 1 (some [csvHeader])).2.2
       = some [csvHeader]) :=
  ⟨rfl, c10_empty_session_leaves_file_unchanged envFail 1
    (some [csvHeader]) rfl⟩

end MeterReader
